import Mathlib

/-!
Verification development for the wp-host WordPress batch deployment tool.

The definitions below are a shallow embedding of the TypeScript source:
pure string/list computations are translated directly; stateful and
effectful methods are modelled as functions over explicit state, with
oracles standing for the outcomes of external effects (SQL execution,
network fetch, archive extraction, per-site pipeline runs).
-/

namespace WPHost

/-! ## types.ts (src/src flavour) -/

inductive Status where
| success
| failed
| skipped
deriving DecidableEq, Repr

structure DatabaseInfo where
  database_name : String
  username : String
  password : String
  host : String
  port : Nat
deriving DecidableEq, Repr

structure WordpressInfo where
  site_url : String
  admin_user : String
  admin_password : String
  admin_email : String
deriving DecidableEq, Repr

structure DeploymentResult where
  site_name : String
  status : Status
  database_info : Option DatabaseInfo := none
  wordpress_info : Option WordpressInfo := none
  wordpress_path : Option String := none
  errors : Option (List String) := none
deriving DecidableEq, Repr

/-- SiteConfig as used by wordpress-manager.ts and permissions-manager.ts. -/
structure SiteConfig where
  site_name : String
  directory_path : String
  database_name : Option String := none
  db_user : Option String := none
  wordpress_admin_username : Option String := none
  wordpress_site_title : Option String := none
deriving DecidableEq, Repr

structure MySQLConfig where
  host : String
  port : Nat
  rootUser : String
  rootPassword : String
  sharedDbPassword : String
deriving DecidableEq, Repr

/-! ## mysql-manager.ts

Each method of `MySQLManager` is modelled as a function from the manager
state and a SQL oracle to an `OpResult`: the (unchanged) manager state, the
ordered list of SQL statements handed to `connection.execute`, and the
method's outcome.  The oracle maps a statement text and its bound
parameters to the rows returned (as opaque strings) or an error message. -/

abbrev SqlOracle := String → List String → Except String (List String)

structure MySQLManager where
  config : MySQLConfig
  connection : Option Unit
deriving Repr

structure OpResult (α : Type) where
  manager : MySQLManager
  sql : List String
  res : Except String α

def notConnectedMsg : String := "Not connected to MySQL. Call connect() first."

/-- `password.replace(/'/g, "''")`: double every single quote. -/
def escapePassword (p : String) : String :=
  String.mk (escapeChars p.data)
where
  escapeChars : List Char → List Char
  | [] => []
  | c :: rest =>
    if c = '\x27' then '\x27' :: '\x27' :: escapeChars rest
    else c :: escapeChars rest

/-- The CREATE USER statement built in `createUser` (mysql-manager.ts:190). -/
def createUserSQL (username password host : String) : String :=
  "CREATE USER `" ++ username ++ "`@`" ++ host ++ "` IDENTIFIED BY \x27"
    ++ escapePassword password ++ "\x27"

/-- The CREATE USER statement built in `createDatabaseAndUserClean`
(mysql-manager.ts:390); textually the same template as in `createUser`. -/
def cleanCreateUserSQL (username password host : String) : String :=
  "CREATE USER `" ++ username ++ "`@`" ++ host ++ "` IDENTIFIED BY \x27"
    ++ escapePassword password ++ "\x27"

namespace MySQLManager

def databaseExistsQuery : String :=
  "SELECT SCHEMA_NAME FROM INFORMATION_SCHEMA.SCHEMATA WHERE SCHEMA_NAME = ?"

def databaseExists (m : MySQLManager) (o : SqlOracle) (databaseName : String) :
    OpResult Bool :=
  match m.connection with
  | none => ⟨m, [], .error notConnectedMsg⟩
  | some _ =>
    match o databaseExistsQuery [databaseName] with
    | .error e => ⟨m, [databaseExistsQuery],
        .error ("Failed to check if database exists: " ++ e)⟩
    | .ok rows => ⟨m, [databaseExistsQuery], .ok (rows.length > 0)⟩

def userExistsQuery : String :=
  "SELECT User FROM mysql.user WHERE User = ? AND Host = ?"

def userExists (m : MySQLManager) (o : SqlOracle) (username host : String) :
    OpResult Bool :=
  match m.connection with
  | none => ⟨m, [], .error notConnectedMsg⟩
  | some _ =>
    match o userExistsQuery [username, host] with
    | .error e => ⟨m, [userExistsQuery],
        .error ("Failed to check if user exists: " ++ e)⟩
    | .ok rows => ⟨m, [userExistsQuery], .ok (rows.length > 0)⟩

def createDatabase (m : MySQLManager) (o : SqlOracle) (databaseName : String) :
    OpResult Unit :=
  match m.connection with
  | none => ⟨m, [], .error notConnectedMsg⟩
  | some _ =>
    let d := databaseExists m o databaseName
    match d.res with
    | .error e => ⟨m, d.sql,
        .error ("Failed to create database " ++ databaseName ++ ": " ++ e)⟩
    | .ok true => ⟨m, d.sql, .ok ()⟩
    | .ok false =>
      let sql := "CREATE DATABASE `" ++ databaseName ++ "`"
      match o sql [] with
      | .error e => ⟨m, d.sql ++ [sql],
          .error ("Failed to create database " ++ databaseName ++ ": " ++ e)⟩
      | .ok _ => ⟨m, d.sql ++ [sql], .ok ()⟩

def createUser (m : MySQLManager) (o : SqlOracle) (username password host : String) :
    OpResult Unit :=
  match m.connection with
  | none => ⟨m, [], .error notConnectedMsg⟩
  | some _ =>
    let u := userExists m o username host
    match u.res with
    | .error e => ⟨m, u.sql,
        .error ("Failed to create user " ++ username ++ "@" ++ host ++ ": " ++ e)⟩
    | .ok true => ⟨m, u.sql, .ok ()⟩
    | .ok false =>
      let sql := createUserSQL username password host
      match o sql [] with
      | .error e => ⟨m, u.sql ++ [sql],
          .error ("Failed to create user " ++ username ++ "@" ++ host ++ ": " ++ e)⟩
      | .ok _ => ⟨m, u.sql ++ [sql], .ok ()⟩

def grantPrivileges (m : MySQLManager) (o : SqlOracle)
    (username databaseName host : String) : OpResult Unit :=
  match m.connection with
  | none => ⟨m, [], .error notConnectedMsg⟩
  | some _ =>
    let g := "GRANT ALL PRIVILEGES ON `" ++ databaseName ++ "`.* TO `"
      ++ username ++ "`@`" ++ host ++ "`"
    match o g [] with
    | .error e => ⟨m, [g], .error ("Failed to grant privileges: " ++ e)⟩
    | .ok _ =>
      match o "FLUSH PRIVILEGES" [] with
      | .error e => ⟨m, [g, "FLUSH PRIVILEGES"],
          .error ("Failed to grant privileges: " ++ e)⟩
      | .ok _ => ⟨m, [g, "FLUSH PRIVILEGES"], .ok ()⟩

structure ServerInfo where
  version : String
  host : String
  port : Nat
deriving DecidableEq, Repr

def getServerInfo (m : MySQLManager) (o : SqlOracle) : OpResult ServerInfo :=
  match m.connection with
  | none => ⟨m, [], .error notConnectedMsg⟩
  | some _ =>
    let q := "SELECT VERSION() as version"
    match o q [] with
    | .error e => ⟨m, [q], .error ("Failed to get server info: " ++ e)⟩
    | .ok rows =>
      ⟨m, [q], .ok ⟨rows.headD "Unknown", m.config.host, m.config.port⟩⟩

def executeQuery (m : MySQLManager) (o : SqlOracle) (query : String)
    (params : List String) : OpResult (List String) :=
  match m.connection with
  | none => ⟨m, [], .error notConnectedMsg⟩
  | some _ =>
    match o query params with
    | .error e => ⟨m, [query], .error ("Failed to execute query: " ++ e)⟩
    | .ok rows => ⟨m, [query], .ok rows⟩

def dropDatabaseAndUser (m : MySQLManager) (o : SqlOracle)
    (databaseName username host : String) : OpResult Unit :=
  match m.connection with
  | none => ⟨m, [], .error notConnectedMsg⟩
  | some _ =>
    let d1 := "DROP DATABASE IF EXISTS `" ++ databaseName ++ "`"
    let d2 := "DROP USER IF EXISTS `" ++ username ++ "`@`" ++ host ++ "`"
    match o d1 [] with
    | .error e => ⟨m, [d1], .error ("Failed to perform clean slate reset: " ++ e)⟩
    | .ok _ =>
      match o d2 [] with
      | .error e => ⟨m, [d1, d2],
          .error ("Failed to perform clean slate reset: " ++ e)⟩
      | .ok _ =>
        match o "FLUSH PRIVILEGES" [] with
        | .error e => ⟨m, [d1, d2, "FLUSH PRIVILEGES"],
            .error ("Failed to perform clean slate reset: " ++ e)⟩
        | .ok _ => ⟨m, [d1, d2, "FLUSH PRIVILEGES"], .ok ()⟩

def createDatabaseAndUserClean (m : MySQLManager) (o : SqlOracle)
    (databaseName username password host : String) : OpResult Unit :=
  match m.connection with
  | none => ⟨m, [], .error notConnectedMsg⟩
  | some _ =>
    let dres := dropDatabaseAndUser m o databaseName username host
    match dres.res with
    | .error e => ⟨m, dres.sql,
        .error ("Failed to create database and user with clean slate: " ++ e)⟩
    | .ok _ =>
      let c1 := "CREATE DATABASE `" ++ databaseName ++ "`"
      match o c1 [] with
      | .error e => ⟨m, dres.sql ++ [c1],
          .error ("Failed to create database and user with clean slate: " ++ e)⟩
      | .ok _ =>
        let c2 := cleanCreateUserSQL username password host
        match o c2 [] with
        | .error e => ⟨m, dres.sql ++ [c1, c2],
            .error ("Failed to create database and user with clean slate: " ++ e)⟩
        | .ok _ =>
          let c3 := "GRANT ALL PRIVILEGES ON `" ++ databaseName ++ "`.* TO `"
            ++ username ++ "`@`" ++ host ++ "`"
          match o c3 [] with
          | .error e => ⟨m, dres.sql ++ [c1, c2, c3],
              .error ("Failed to create database and user with clean slate: " ++ e)⟩
          | .ok _ =>
            match o "FLUSH PRIVILEGES" [] with
            | .error e => ⟨m, dres.sql ++ [c1, c2, c3, "FLUSH PRIVILEGES"],
                .error ("Failed to create database and user with clean slate: " ++ e)⟩
            | .ok _ =>
              ⟨m, dres.sql ++ [c1, c2, c3, "FLUSH PRIVILEGES"], .ok ()⟩

end MySQLManager

/-! ## config-parser.ts

`ConfigParser` validates the parsed configuration.  Its record types come
from the accompanying types module (`adminUser` flavour); validation is a
pure computation collecting `ValidationError`s and throwing one formatted
error if any were found. -/

namespace ConfigParser

structure ValidationError where
  field : String
  message : String
  siteIndex : Option Nat := none
deriving DecidableEq, Repr

structure SiteConfig where
  site_name : String
  directory_path : String
  database_name : String
  db_user : Option String := none
  admin_email : Option String := none
deriving DecidableEq, Repr

structure MySQLConfig where
  host : String
  port : Int
  adminUser : String
  adminPassword : String
deriving DecidableEq, Repr

structure Config where
  mysql : Option MySQLConfig := none
  sites : Option (List SiteConfig) := none
deriving DecidableEq, Repr

/-- Character class of the regex `[a-zA-Z0-9_-]`. -/
def isSiteNameChar (c : Char) : Bool :=
  c.isAlpha || c.isDigit || c = '_' || c = '-'

/-- `/^[a-zA-Z0-9_-]+$/.test s` -/
def validSiteName (s : String) : Bool :=
  s.length > 0 && s.data.all isSiteNameChar

/-- Character class of the regex `[a-zA-Z0-9_]`. -/
def isDbNameChar (c : Char) : Bool :=
  c.isAlpha || c.isDigit || c = '_'

/-- `/^[a-zA-Z0-9_]+$/.test s` -/
def validDbName (s : String) : Bool :=
  s.length > 0 && s.data.all isDbNameChar

/-- Whitespace as matched by the regex class `\s` (ASCII part). -/
def isJsSpace (c : Char) : Bool :=
  c = ' ' || c = '\t' || c = '\n' || c = '\r' || c = '\x0b' || c = '\x0c'

/-- JavaScript `String.prototype.trim`: strip whitespace from both ends. -/
def trimStr (s : String) : String :=
  String.mk (((s.data.dropWhile isJsSpace).reverse.dropWhile isJsSpace).reverse)

/-- A character allowed by `[^\s@]`. -/
def isEmailChar (c : Char) : Bool :=
  !(isJsSpace c) && c ≠ '@'

/-- The domain part needs an inner dot: `[^\s@]+\.[^\s@]+` means some dot
that is neither the first nor the last character of the domain. -/
def innerDotAux : List Char → Bool
| [] => false
| [_] => false
| c :: rest => c = '.' || innerDotAux rest

def hasInnerDot (d : String) : Bool :=
  match d.data with
  | [] => false
  | _ :: rest => innerDotAux rest

/-- `/^[^\s@]+@[^\s@]+\.[^\s@]+$/.test s` -/
def emailValid (s : String) : Bool :=
  match s.splitOn "@" with
  | [localPart, domain] =>
    localPart.length > 0 && localPart.data.all isEmailChar &&
    domain.length > 0 && domain.data.all isEmailChar &&
    hasInnerDot domain
  | _ => false

/-- `validateSiteConfig`: errors pushed for one site, in source push order. -/
def validateSiteConfig (site : SiteConfig) (index : Nat) : List ValidationError :=
  (if trimStr site.site_name = "" then
    [⟨"site_name", "Site name is required and cannot be empty", some index⟩] else [])
  ++ (if trimStr site.directory_path = "" then
    [⟨"directory_path", "Directory path is required and cannot be empty", some index⟩] else [])
  ++ (if trimStr site.database_name = "" then
    [⟨"database_name", "Database name is required and cannot be empty", some index⟩] else [])
  ++ (if site.site_name ≠ "" && !(validSiteName site.site_name) then
    [⟨"site_name", "Site name can only contain letters, numbers, underscores, and hyphens", some index⟩] else [])
  ++ (if site.database_name ≠ "" && !(validDbName site.database_name) then
    [⟨"database_name", "Database name can only contain letters, numbers, and underscores", some index⟩] else [])
  ++ (match site.admin_email with
    | some e =>
      if e ≠ "" && !(emailValid e) then
        [⟨"admin_email", "Invalid email format", some index⟩] else []
    | none => [])

def validateMySQLConfig (m : MySQLConfig) : List ValidationError :=
  (if trimStr m.host = "" then [⟨"mysql.host", "MySQL host is required", none⟩] else [])
  ++ (if m.port < 1 || m.port > 65535 then
    [⟨"mysql.port", "MySQL port must be between 1 and 65535", none⟩] else [])
  ++ (if trimStr m.adminUser = "" then
    [⟨"mysql.adminUser", "MySQL admin user is required", none⟩] else [])
  ++ (if trimStr m.adminPassword = "" then
    [⟨"mysql.adminPassword", "MySQL admin password is required", none⟩] else [])

/-- `checkDuplicates`: walk the site list with two seen-sets, pushing a
violation for each occurrence whose name was already seen. -/
def checkDupAux : List SiteConfig → Nat → List String → List String → List ValidationError
| [], _, _, _ => []
| s :: rest, i, seenNames, seenDbs =>
  (if s.site_name ∈ seenNames then
    [⟨"site_name", "Duplicate site name: " ++ s.site_name, some i⟩] else [])
  ++ (if s.database_name ∈ seenDbs then
    [⟨"database_name", "Duplicate database name: " ++ s.database_name, some i⟩] else [])
  ++ checkDupAux rest (i + 1)
      (if s.site_name ∈ seenNames then seenNames else s.site_name :: seenNames)
      (if s.database_name ∈ seenDbs then seenDbs else s.database_name :: seenDbs)

def checkDuplicates (sites : List SiteConfig) : List ValidationError :=
  checkDupAux sites 0 [] []

/-- The `errors` array accumulated by `validateConfig` for a config whose
`sites` field is present, in source push order. -/
def collectErrors (mysql : Option MySQLConfig) (sites : List SiteConfig) :
    List ValidationError :=
  (if sites.length = 0 then [⟨"sites", "Sites array cannot be empty", none⟩] else [])
  ++ (sites.enum.map fun p => validateSiteConfig p.2 p.1).flatten
  ++ (match mysql with
    | some m => validateMySQLConfig m
    | none => [])
  ++ checkDuplicates sites

def formatLine (e : ValidationError) : String :=
  match e.siteIndex with
  | some i => "- Site " ++ toString (i + 1) ++ " (" ++ e.field ++ "): " ++ e.message
  | none => "- " ++ e.field ++ ": " ++ e.message

def formatErrors (errs : List ValidationError) : String :=
  "Configuration validation failed:\n" ++ String.intercalate "\n" (errs.map formatLine)

/-- `validateConfig`: returns the thrown message, or `ok` when valid. -/
def validateConfig (c : Config) : Except String Unit :=
  match c.sites with
  | none =>
    .error (formatErrors [⟨"sites", "Configuration must contain a \"sites\" array", none⟩])
  | some sites =>
    let errors := collectErrors c.mysql sites
    if errors.isEmpty then .ok () else .error (formatErrors errors)

end ConfigParser

/-! ## wordpress-manager.ts -/

namespace WordPressManager

/-- Body of the per-site loop of `installAllSites`: the per-site pipeline
outcome is pushed through unchanged; a thrown error is caught and recorded
as a failed result for that site only. -/
def processSite (site : SiteConfig) (outcome : Except String DeploymentResult) :
    DeploymentResult :=
  match outcome with
  | .ok r => r
  | .error errorMessage =>
    { site_name := site.site_name, status := .failed, errors := some [errorMessage] }

/-- `installAllSites`: WP-CLI is ensured once up front (`wpcli` is that
step's outcome; a failure there propagates and no site is processed), then
each site's pipeline (`runSite` is `installWordPressSite`'s outcome for the
site) runs inside its own try/catch. -/
def installAllSites (wpcli : Except String Unit) (sites : List SiteConfig)
    (runSite : SiteConfig → Except String DeploymentResult) :
    Except String (List DeploymentResult) :=
  match wpcli with
  | .error e => .error e
  | .ok _ => .ok (sites.map fun site => processSite site (runSite site))

structure Summary where
  total : Nat
  successful : Nat
  failed : Nat
  skipped : Nat
deriving DecidableEq, Repr

def getSummary (results : List DeploymentResult) : Summary :=
  ⟨results.length,
   (results.filter fun r => r.status = .success).length,
   (results.filter fun r => r.status = .failed).length,
   (results.filter fun r => r.status = .skipped).length⟩

/-- `file.startsWith(".")`: the entry name begins with a dot. -/
def startsWithDot (f : String) : Bool :=
  match f.data with
  | [] => false
  | c :: _ => c = '.'

/-- The `allowCleanup` argument of `prepareDirectory`:
`false`, `true` (ask for confirmation) or `'auto'`. -/
inductive CleanupMode where
| off
| confirm
| auto
deriving DecidableEq, Repr

/-- `safeCleanDirectory`: every entry is removed; entries the OS protects
(`removable` is false) are skipped with a warning and left in place. -/
def safeCleanDirectory (entries : List String) (removable : String → Bool) :
    List String :=
  entries.filter fun f => !(removable f)

/-- The write-access probe at the end of `prepareDirectory`: a throwaway
file is written and removed, leaving the contents unchanged; failure is
wrapped by the surrounding catch. -/
def writeTestProbe (entries : List String) (writable : Bool) :
    Except String Unit × List String :=
  if writable then (.ok (), entries)
  else (.error "Cannot prepare directory: write test failed", entries)

/-- `prepareDirectory` over the target directory's top-level entry names.
`confirmAnswer` is the interactive `inquirer` reply, `removable` says which
entries `safeCleanDirectory` can actually delete, `writable` is the write
probe's outcome.  Returns the method's outcome and the directory contents
afterwards. -/
def prepareDirectory (entries : List String) (mode : CleanupMode)
    (confirmAnswer : Bool) (removable : String → Bool) (writable : Bool) :
    Except String Unit × List String :=
  let visibleFiles := entries.filter fun f => !(startsWithDot f)
  if visibleFiles.length > 0 then
    if entries.contains "wp-config.php" || entries.contains "wp-includes" then
      match mode with
      | .off => (.error "WordPress already installed in target directory", entries)
      | .confirm =>
        if confirmAnswer then ((.ok ()), safeCleanDirectory entries removable)
        else (.error "WordPress already installed in target directory", entries)
      | .auto => ((.ok ()), safeCleanDirectory entries removable)
    else
      match mode with
      | .off => (.error "Target directory is not empty", entries)
      | .confirm =>
        if confirmAnswer then writeTestProbe (safeCleanDirectory entries removable) writable
        else (.error "Target directory is not empty", entries)
      | .auto => writeTestProbe (safeCleanDirectory entries removable) writable
  else writeTestProbe entries writable

/-- Possible outcomes of the fetch/stream phase of `downloadWordPress`. -/
inductive FetchOutcome where
| notOk (status : Nat) (statusText : String)
| emptyBody
| streamFail (msg : String)
| fetched (size : Nat)
deriving DecidableEq, Repr

/-- The try block of `downloadWordPress`: outcome plus whether
`wordpress-temp.zip` exists in the target directory at that point. -/
def downloadAttempt (o : FetchOutcome) : Except String String × Bool :=
  match o with
  | .notOk status statusText =>
    (.error ("Download failed: " ++ toString status ++ " " ++ statusText), false)
  | .emptyBody => (.error "Download response body is empty", false)
  | .streamFail msg => (.error msg, true)
  | .fetched size =>
    if size < 1000000 then (.error "Downloaded file appears to be incomplete", true)
    else (.ok "wordpress-temp.zip", true)

/-- `downloadWordPress`: the catch removes any partial zip before
rethrowing the wrapped error. -/
def downloadWordPress (o : FetchOutcome) : Except String String × Bool :=
  match downloadAttempt o with
  | (.ok p, zipPresent) => (.ok p, zipPresent)
  | (.error e, _) => (.error ("WordPress download failed: " ++ e), false)

/-- Possible outcomes of the extraction phase of `extractWordPress`. -/
inductive ExtractOutcome where
| streamError (msg : String)
| timeout
| noWordpressDir
| moveFail (msg : String)
| extracted
deriving DecidableEq, Repr

/-- Temp artifacts of `extractWordPress` in the target directory. -/
structure ExtractState where
  tempDirPresent : Bool
  zipPresent : Bool
deriving DecidableEq, Repr

/-- The try block of `extractWordPress`: the `temp-extract` directory is
created first; on success the files are moved and both the temp directory
and the zip are removed. -/
def extractAttempt (o : ExtractOutcome) : Except String Unit × ExtractState :=
  match o with
  | .streamError msg => (.error msg, ⟨true, true⟩)
  | .timeout => (.error "ZIP extraction timeout after 60 seconds", ⟨true, true⟩)
  | .noWordpressDir => (.error "WordPress folder not found in extracted ZIP", ⟨true, true⟩)
  | .moveFail msg => (.error msg, ⟨true, true⟩)
  | .extracted => ((.ok ()), ⟨false, false⟩)

/-- `extractWordPress`: the catch removes the `temp-extract` directory (if
present) before rethrowing the wrapped error; the zip is not touched by
the catch. -/
def extractWordPress (o : ExtractOutcome) : Except String Unit × ExtractState :=
  match extractAttempt o with
  | (.ok u, st) => (.ok u, st)
  | (.error e, st) =>
    (.error ("WordPress extraction failed: " ++ e), { st with tempDirPresent := false })

/-- The character set of `generateKey` in `createWordPressConfig`
(wordpress-manager.ts:1118); 85 characters, with no single quote, no
backslash and no dollar sign. -/
def wpConfigKeyChars : String :=
  "abcdefghijklmnopqrstuvwxyzABCDEFGHIJKLMNOPQRSTUVWXYZ0123456789!@#%^&*()-_=+[]\x7b\x7d|:,.<>"

def keyChars : List Char := wpConfigKeyChars.data

/-- One call of `generateKey`: 64 characters, each picked by one
`Math.random` draw.  `draws` is the process-wide sequence of values
`Math.floor(Math.random() * chars.length)` (always in `[0, 85)`); the call
consumes draws `start, start+1, …, start+63`. -/
def generateKey (draws : Nat → Fin 85) (start : Nat) : String :=
  String.mk ((List.range 64).map fun i =>
    keyChars.get (Fin.cast (by decide) (draws (start + i))))

/-- The eight secret slots are filled by eight successive `generateKey()`
calls, slot `k` consuming draws `64*k … 64*k+63`. -/
def generateSecurityKeys (draws : Nat → Fin 85) : List String :=
  (List.range 8).map fun k => generateKey draws (64 * k)

end WordPressManager

/-! ## permissions-manager.ts -/

namespace PermissionsManager

/-- `setAllPermissions`: per-site loop with try/catch; a throw from
`setSitePermissions` (`runSite`'s error case) is recorded as a failed
result for that site. -/
def setAllPermissions (sites : List SiteConfig)
    (runSite : SiteConfig → Except String DeploymentResult) :
    List DeploymentResult :=
  sites.map fun site =>
    match runSite site with
    | .ok r => r
    | .error errorMessage =>
      { site_name := site.site_name, status := .failed, errors := some [errorMessage] }

structure Summary where
  total : Nat
  successful : Nat
  failed : Nat
deriving DecidableEq, Repr

def getSummary (results : List DeploymentResult) : Summary :=
  ⟨results.length,
   (results.filter fun r => r.status = .success).length,
   (results.filter fun r => r.status = .failed).length⟩

end PermissionsManager

/-! ## database-manager / config-manager summaries -/

namespace DatabaseManager

/-- Modelled from the spec: `database-manager.ts` is not among the source
files; the spec says a `StageSummary` is "aggregate counts (`total`,
`successful`, `failed`, `skipped`) derived purely from a list of
`ProvisioningResult`s", matching the `getSummary` methods present in
wordpress-manager.ts. -/
def getSummary (results : List DeploymentResult) : WordPressManager.Summary :=
  ⟨results.length,
   (results.filter fun r => r.status = .success).length,
   (results.filter fun r => r.status = .failed).length,
   (results.filter fun r => r.status = .skipped).length⟩

end DatabaseManager

namespace ConfigManager

/-- Modelled from the spec: `config-manager.ts` is not among the source
files; same `StageSummary` counting as the other stage managers. -/
def getSummary (results : List DeploymentResult) : WordPressManager.Summary :=
  ⟨results.length,
   (results.filter fun r => r.status = .success).length,
   (results.filter fun r => r.status = .failed).length,
   (results.filter fun r => r.status = .skipped).length⟩

end ConfigManager

/-! ## index.ts — the `deploy` command

The deploy action runs the four gated stages in order (databases,
WordPress install, wp-config generation, permissions); after each stage it
checks the stage summary and calls `process.exit(1)` if any site failed,
so later stages are not attempted for any site.  The per-stage result
lists are the inputs; the trace records which stages were entered and the
exit code (`some 1` = aborted via `process.exit(1)`, `none` = fell through
to the optional steps and the completion summary). -/

structure DeployTrace where
  dbAttempted : Bool
  wpAttempted : Bool
  configAttempted : Bool
  permissionsAttempted : Bool
  exitCode : Option Nat
deriving DecidableEq, Repr

def deploy (dbResults wpResults configResults permissionResults :
    List DeploymentResult) : DeployTrace :=
  if (DatabaseManager.getSummary dbResults).failed > 0 then
    ⟨true, false, false, false, some 1⟩
  else if (WordPressManager.getSummary wpResults).failed > 0 then
    ⟨true, true, false, false, some 1⟩
  else if (ConfigManager.getSummary configResults).failed > 0 then
    ⟨true, true, true, false, some 1⟩
  else if (PermissionsManager.getSummary permissionResults).failed > 0 then
    ⟨true, true, true, true, some 1⟩
  else
    ⟨true, true, true, true, none⟩

/-! ## Auxiliary definitions for the statements -/

/-- Whether an `Except` value is a success. -/
def exceptOk {ε α : Type} : Except ε α → Bool
| .ok _ => true
| .error _ => false

def strHasPrefix : List Char → List Char → Bool
| _, [] => true
| [], _ :: _ => false
| c :: s, p :: ps => c = p && strHasPrefix s ps

def strContainsAux : List Char → List Char → Bool
| [], pat => pat.isEmpty
| c :: rest, pat => strHasPrefix (c :: rest) pat || strContainsAux rest pat

/-- Substring test used to state "the message contains …". -/
def containsSubstr (s pat : String) : Bool :=
  strContainsAux s.data pat.data

/-- A scanner for the body of a single-quoted SQL string literal: reads the
characters after the opening quote, treating a doubled quote as a literal
quote character, and stops at the first undoubled quote.  Returns the
decoded content together with the rest of the statement, or `none` if the
literal is unterminated. -/
def scanLit : List Char → Option (List Char × List Char)
| [] => none
| [c] => if c = '\x27' then some ([], []) else none
| c :: c2 :: rest =>
  if c = '\x27' then
    if c2 = '\x27' then (scanLit rest).map fun p => ('\x27' :: p.1, p.2)
    else some ([], c2 :: rest)
  else (scanLit (c2 :: rest)).map fun p => (c :: p.1, p.2)

/-! ## Concrete fixtures -/

def sampleMySQLConfig : MySQLConfig := ⟨"localhost", 3306, "root", "rootpw", "sharedpw"⟩

def mDisconnected : MySQLManager := ⟨sampleMySQLConfig, none⟩

def mConnected : MySQLManager := ⟨sampleMySQLConfig, some ()⟩

/-- An oracle on which every SQL statement succeeds with no rows. -/
def okOracle : SqlOracle := fun _ _ => .ok []

/-- The six-statement sequence the claim attributes to
`createDatabaseAndUserClean` for database `acme_db`, user `acme_user`,
password `sharedpw`, host `localhost`. -/
def claimedCleanSql : List String :=
  ["DROP DATABASE IF EXISTS `acme_db`",
   "DROP USER IF EXISTS `acme_user`@`localhost`",
   "CREATE DATABASE `acme_db`",
   "CREATE USER `acme_user`@`localhost` IDENTIFIED BY \x27sharedpw\x27",
   "GRANT ALL PRIVILEGES ON `acme_db`.* TO `acme_user`@`localhost`",
   "FLUSH PRIVILEGES"]

def threeFailedDb : List DeploymentResult :=
  [{ site_name := "site1", status := .failed,
     errors := some ["Failed to create database site1_db: boom"] },
   { site_name := "site2", status := .failed,
     errors := some ["Failed to create database site2_db: boom"] },
   { site_name := "site3", status := .failed,
     errors := some ["Failed to create database site3_db: boom"] }]

def acmeSite : SiteConfig := { site_name := "acme", directory_path := "/var/www/acme" }

def betaSite : SiteConfig := { site_name := "beta", directory_path := "/var/www/beta" }

/-- A permissions run on which every site throws. -/
def permFailRun : SiteConfig → Except String DeploymentResult :=
  fun _ => .error "Permission setting failed: EPERM: operation not permitted"

def okSiteResult : DeploymentResult := { site_name := "acme", status := .success }

def allOk : List DeploymentResult := [okSiteResult]

def betaResult : DeploymentResult := { site_name := "beta", status := .success }

/-- A WordPress installation run where site `acme` throws and every other
site succeeds. -/
def installRun : SiteConfig → Except String DeploymentResult := fun s =>
  if s.site_name = "acme" then
    .error "WordPress installation failed: Failed to create database"
  else .ok { site_name := s.site_name, status := .success }

def dupA : ConfigParser.SiteConfig :=
  { site_name := "alpha", directory_path := "/srv/www/alpha", database_name := "shared_db" }

def dupB : ConfigParser.SiteConfig :=
  { site_name := "beta", directory_path := "/srv/www/beta", database_name := "shared_db" }

def dupConfig : ConfigParser.Config := { mysql := none, sites := some [dupA, dupB] }

/-! ## Helper lemmas -/

theorem scanLit_escapeChars (cs : List Char) :
    scanLit (escapePassword.escapeChars cs ++ ['\x27']) = some (cs, []) := by
  induction cs with
  | nil => rfl
  | cons c rest ih =>
    by_cases hc : c = '\x27'
    · subst hc
      rw [show escapePassword.escapeChars ('\x27' :: rest) =
            '\x27' :: '\x27' :: escapePassword.escapeChars rest from rfl,
          List.cons_append, List.cons_append, scanLit, if_pos rfl, if_pos rfl, ih]
      rfl
    · rw [show escapePassword.escapeChars (c :: rest) =
            c :: escapePassword.escapeChars rest from by
          simp [escapePassword.escapeChars, hc]]
      rcases hE : escapePassword.escapeChars rest ++ ['\x27'] with _ | ⟨d, ds⟩
      · exact absurd hE (by simp)
      · rw [List.cons_append, hE, scanLit, if_neg hc, ← hE, ih]
        rfl

theorem failed_count_pos {l : List DeploymentResult} {r : DeploymentResult}
    (hm : r ∈ l) (hr : r.status = Status.failed) :
    0 < (PermissionsManager.getSummary l).failed := by
  have : r ∈ l.filter fun x => x.status = Status.failed := by
    simp [List.mem_filter, hm, hr]
  exact List.length_pos.mpr (List.ne_nil_of_mem this)

/-! ## Claim theorems -/

/-- Claim C9: every `MySQLManager` operation that uses the stored
administrative connection, called while `connect()` has not succeeded
(`connection = null`), throws the "Not connected to MySQL" error, issues
no SQL statement, and leaves the manager unchanged. -/
theorem not_connected_guard (m : MySQLManager) (h : m.connection = none)
    (o : SqlOracle) (db u p host q : String) (ps : List String) :
    MySQLManager.databaseExists m o db = ⟨m, [], .error notConnectedMsg⟩ ∧
    MySQLManager.userExists m o u host = ⟨m, [], .error notConnectedMsg⟩ ∧
    MySQLManager.createDatabase m o db = ⟨m, [], .error notConnectedMsg⟩ ∧
    MySQLManager.createUser m o u p host = ⟨m, [], .error notConnectedMsg⟩ ∧
    MySQLManager.grantPrivileges m o u db host = ⟨m, [], .error notConnectedMsg⟩ ∧
    MySQLManager.getServerInfo m o = ⟨m, [], .error notConnectedMsg⟩ ∧
    MySQLManager.executeQuery m o q ps = ⟨m, [], .error notConnectedMsg⟩ ∧
    MySQLManager.dropDatabaseAndUser m o db u host = ⟨m, [], .error notConnectedMsg⟩ ∧
    MySQLManager.createDatabaseAndUserClean m o db u p host =
      ⟨m, [], .error notConnectedMsg⟩ ∧
    containsSubstr notConnectedMsg "Not connected to MySQL" = true := by
  obtain ⟨cfg, conn⟩ := m
  cases conn with
  | some u => exact Option.noConfusion h
  | none => exact ⟨rfl, rfl, rfl, rfl, rfl, rfl, rfl, rfl, rfl, rfl⟩

/-- Witness for C9 at a concrete disconnected manager. -/
theorem not_connected_guard_witness :
    MySQLManager.databaseExists mDisconnected okOracle "acme_db" =
      ⟨mDisconnected, [], .error notConnectedMsg⟩ ∧
    MySQLManager.userExists mDisconnected okOracle "acme_user" "localhost" =
      ⟨mDisconnected, [], .error notConnectedMsg⟩ ∧
    MySQLManager.createDatabase mDisconnected okOracle "acme_db" =
      ⟨mDisconnected, [], .error notConnectedMsg⟩ ∧
    MySQLManager.createUser mDisconnected okOracle "acme_user" "sharedpw" "localhost" =
      ⟨mDisconnected, [], .error notConnectedMsg⟩ ∧
    MySQLManager.grantPrivileges mDisconnected okOracle "acme_user" "acme_db" "localhost" =
      ⟨mDisconnected, [], .error notConnectedMsg⟩ ∧
    MySQLManager.getServerInfo mDisconnected okOracle =
      ⟨mDisconnected, [], .error notConnectedMsg⟩ ∧
    MySQLManager.executeQuery mDisconnected okOracle "SELECT 1" [] =
      ⟨mDisconnected, [], .error notConnectedMsg⟩ ∧
    MySQLManager.dropDatabaseAndUser mDisconnected okOracle "acme_db" "acme_user" "localhost" =
      ⟨mDisconnected, [], .error notConnectedMsg⟩ ∧
    MySQLManager.createDatabaseAndUserClean mDisconnected okOracle
        "acme_db" "acme_user" "sharedpw" "localhost" =
      ⟨mDisconnected, [], .error notConnectedMsg⟩ ∧
    containsSubstr notConnectedMsg "Not connected to MySQL" = true :=
  not_connected_guard mDisconnected rfl okOracle "acme_db" "acme_user" "sharedpw"
    "localhost" "SELECT 1" []

/-- Claim C10: the CREATE USER statement built by `createUser` and by
`createDatabaseAndUserClean` embeds the password with every single quote
doubled; scanning the quoted literal from the opening quote recovers the
whole password and stops exactly at the final closing quote, so no quote
inside the password terminates the literal early and the rest of the
statement is a fixed prefix independent of the password. -/
theorem password_quoting_safe (username password host : String) :
    createUserSQL username password host =
      "CREATE USER `" ++ username ++ "`@`" ++ host ++ "` IDENTIFIED BY \x27"
        ++ escapePassword password ++ "\x27" ∧
    cleanCreateUserSQL username password host = createUserSQL username password host ∧
    scanLit ((escapePassword password).data ++ ['\x27']) = some (password.data, []) :=
  ⟨rfl, rfl, scanLit_escapeChars password.data⟩

/-- Counterexample for C2: on a connected manager with every statement
succeeding, `createDatabaseAndUserClean` does not issue the six-statement
sequence the claim lists; it issues seven statements, with an extra FLUSH
PRIVILEGES between DROP USER and CREATE DATABASE (inherited from
`dropDatabaseAndUser`). -/
theorem clean_slate_sql_counterexample :
    (MySQLManager.createDatabaseAndUserClean mConnected okOracle
      "acme_db" "acme_user" "sharedpw" "localhost").sql ≠ claimedCleanSql ∧
    (MySQLManager.createDatabaseAndUserClean mConnected okOracle
      "acme_db" "acme_user" "sharedpw" "localhost").sql =
      ["DROP DATABASE IF EXISTS `acme_db`",
       "DROP USER IF EXISTS `acme_user`@`localhost`",
       "FLUSH PRIVILEGES",
       "CREATE DATABASE `acme_db`",
       "CREATE USER `acme_user`@`localhost` IDENTIFIED BY \x27sharedpw\x27",
       "GRANT ALL PRIVILEGES ON `acme_db`.* TO `acme_user`@`localhost`",
       "FLUSH PRIVILEGES"] :=
  ⟨by decide, rfl⟩

/-- Claim C2 (amended): for every database name, user name, password and
host, on a connected manager whose statements all succeed,
`createDatabaseAndUserClean` issues exactly, in this order: DROP DATABASE
IF EXISTS, DROP USER IF EXISTS, FLUSH PRIVILEGES (ending the clean-slate
drop step), CREATE DATABASE, CREATE USER identified by the password, GRANT
ALL PRIVILEGES on that one database to that user, FLUSH PRIVILEGES. -/
theorem clean_slate_sql_sequence (m : MySQLManager) (o : SqlOracle)
    (db u p h : String) (hc : m.connection = some ())
    (ho : ∀ sql ps, ∃ rows, o sql ps = Except.ok rows) :
    (MySQLManager.createDatabaseAndUserClean m o db u p h).sql =
      ["DROP DATABASE IF EXISTS `" ++ db ++ "`",
       "DROP USER IF EXISTS `" ++ u ++ "`@`" ++ h ++ "`",
       "FLUSH PRIVILEGES",
       "CREATE DATABASE `" ++ db ++ "`",
       cleanCreateUserSQL u p h,
       "GRANT ALL PRIVILEGES ON `" ++ db ++ "`.* TO `" ++ u ++ "`@`" ++ h ++ "`",
       "FLUSH PRIVILEGES"] ∧
    (MySQLManager.createDatabaseAndUserClean m o db u p h).res = Except.ok () := by
  obtain ⟨cfg, conn⟩ := m
  cases conn with
  | none => exact Option.noConfusion hc
  | some uu =>
    obtain ⟨r1, h1⟩ := ho ("DROP DATABASE IF EXISTS `" ++ db ++ "`") []
    obtain ⟨r2, h2⟩ := ho ("DROP USER IF EXISTS `" ++ u ++ "`@`" ++ h ++ "`") []
    obtain ⟨r3, h3⟩ := ho "FLUSH PRIVILEGES" []
    obtain ⟨r4, h4⟩ := ho ("CREATE DATABASE `" ++ db ++ "`") []
    obtain ⟨r5, h5⟩ := ho (cleanCreateUserSQL u p h) []
    obtain ⟨r6, h6⟩ := ho ("GRANT ALL PRIVILEGES ON `" ++ db ++ "`.* TO `"
      ++ u ++ "`@`" ++ h ++ "`") []
    constructor <;>
      simp [MySQLManager.createDatabaseAndUserClean, MySQLManager.dropDatabaseAndUser,
        h1, h2, h3, h4, h5, h6]

/-- Witness for C2's amended theorem at concrete inputs. -/
theorem clean_slate_sql_sequence_witness :
    (MySQLManager.createDatabaseAndUserClean mConnected okOracle
      "acme_db" "acme_user" "sharedpw" "localhost").sql =
      ["DROP DATABASE IF EXISTS `" ++ "acme_db" ++ "`",
       "DROP USER IF EXISTS `" ++ "acme_user" ++ "`@`" ++ "localhost" ++ "`",
       "FLUSH PRIVILEGES",
       "CREATE DATABASE `" ++ "acme_db" ++ "`",
       cleanCreateUserSQL "acme_user" "sharedpw" "localhost",
       "GRANT ALL PRIVILEGES ON `" ++ "acme_db" ++ "`.* TO `" ++ "acme_user"
         ++ "`@`" ++ "localhost" ++ "`",
       "FLUSH PRIVILEGES"] ∧
    (MySQLManager.createDatabaseAndUserClean mConnected okOracle
      "acme_db" "acme_user" "sharedpw" "localhost").res = Except.ok () :=
  clean_slate_sql_sequence mConnected okOracle "acme_db" "acme_user" "sharedpw"
    "localhost" rfl (fun _ _ => ⟨[], rfl⟩)

/-- Claim C1: in the `deploy` command, if the database-creation stage's
failed count is non-zero the run exits with code 1 and the WordPress
staging/installation stage (and everything after it) is never attempted
for any site. -/
theorem deploy_database_gating (db wp cfg perm : List DeploymentResult)
    (h : (DatabaseManager.getSummary db).failed ≠ 0) :
    deploy db wp cfg perm = ⟨true, false, false, false, some 1⟩ := by
  unfold deploy
  rw [if_pos (Nat.pos_of_ne_zero h)]

/-- Witness for C1: three sites whose database creation all failed. -/
theorem deploy_database_gating_witness :
    deploy threeFailedDb [] [] [] = ⟨true, false, false, false, some 1⟩ :=
  deploy_database_gating threeFailedDb [] [] [] (by decide)

/-- Counterexample for C3: a site whose permission-hardening step throws is
recorded with status `failed` by `setAllPermissions`, and the `deploy`
command then exits with code 1 even though every earlier stage succeeded —
the permission stage does abort the batch. -/
theorem permission_failure_counterexample :
    PermissionsManager.setAllPermissions [acmeSite] permFailRun =
      [{ site_name := "acme", status := .failed,
         errors := some ["Permission setting failed: EPERM: operation not permitted"] }] ∧
    deploy allOk allOk allOk (PermissionsManager.setAllPermissions [acmeSite] permFailRun) =
      ⟨true, true, true, true, some 1⟩ :=
  ⟨rfl, by decide⟩

/-- Claim C3 (amended): a failure in the permission-hardening stage marks
that site's result status as `failed`, and — with all earlier stages clean
— any permission failure makes the `deploy` command exit with code 1 after
the permission stage has run for all sites, so the remaining optional
steps do not run. -/
theorem permission_failure_fatal (sites : List SiteConfig)
    (runSite : SiteConfig → Except String DeploymentResult)
    (i : Nat) (hi : i < sites.length) (e : String)
    (hf : runSite (sites.get ⟨i, hi⟩) = .error e)
    (db wp cfg : List DeploymentResult)
    (hdb : (DatabaseManager.getSummary db).failed = 0)
    (hwp : (WordPressManager.getSummary wp).failed = 0)
    (hcfg : (ConfigManager.getSummary cfg).failed = 0) :
    (PermissionsManager.setAllPermissions sites runSite)[i]? =
      some { site_name := (sites.get ⟨i, hi⟩).site_name, status := .failed,
             errors := some [e] } ∧
    deploy db wp cfg (PermissionsManager.setAllPermissions sites runSite) =
      ⟨true, true, true, true, some 1⟩ := by
  have hmem : (PermissionsManager.setAllPermissions sites runSite)[i]? =
      some { site_name := (sites.get ⟨i, hi⟩).site_name, status := Status.failed,
             errors := some [e] } := by
    unfold PermissionsManager.setAllPermissions
    rw [List.getElem?_map, List.getElem?_eq_getElem hi]
    simp only [show sites[i] = sites.get ⟨i, hi⟩ from rfl, Option.map, hf]
  refine ⟨hmem, ?_⟩
  have hperm : 0 < (PermissionsManager.getSummary
      (PermissionsManager.setAllPermissions sites runSite)).failed :=
    failed_count_pos (List.getElem?_mem hmem) rfl
  unfold deploy
  rw [if_neg (by rw [hdb]; exact lt_irrefl 0),
      if_neg (by rw [hwp]; exact lt_irrefl 0),
      if_neg (by rw [hcfg]; exact lt_irrefl 0),
      if_pos hperm]

/-- Witness for C3's amended theorem at a concrete one-site batch. -/
theorem permission_failure_fatal_witness :
    (PermissionsManager.setAllPermissions [acmeSite] permFailRun)[0]? =
      some { site_name := "acme", status := .failed,
             errors := some ["Permission setting failed: EPERM: operation not permitted"] } ∧
    deploy allOk allOk allOk (PermissionsManager.setAllPermissions [acmeSite] permFailRun) =
      ⟨true, true, true, true, some 1⟩ :=
  permission_failure_fatal [acmeSite] permFailRun 0 (by decide)
    "Permission setting failed: EPERM: operation not permitted" rfl
    allOk allOk allOk (by decide) (by decide) (by decide)

/-- Theorem for C8 (code bug): the eight security-key slots are filled
from `Math.random` draws with nothing enforcing distinctness or a
cryptographic source; when the draw sequence repeats (here: every draw 0),
two different slots receive the same secret value. -/
theorem security_keys_collision :
    (WordPressManager.generateSecurityKeys (fun _ => (0 : Fin 85)))[0]? =
      (WordPressManager.generateSecurityKeys (fun _ => (0 : Fin 85)))[1]? ∧
    (WordPressManager.generateSecurityKeys (fun _ => (0 : Fin 85))).length = 8 :=
  ⟨rfl, rfl⟩

/-- Claim C7: a failing download leaves no partial archive behind (the zip
exists after `downloadWordPress` exactly when it succeeded), and a failing
extraction removes the temporary extraction subdirectory before the error
propagates. -/
theorem temp_state_cleanup (od : WordPressManager.FetchOutcome)
    (oe : WordPressManager.ExtractOutcome) :
    (WordPressManager.downloadWordPress od).2 =
      exceptOk (WordPressManager.downloadWordPress od).1 ∧
    (WordPressManager.extractWordPress oe).2.tempDirPresent = false := by
  constructor
  · cases od with
    | notOk status statusText => rfl
    | emptyBody => rfl
    | streamFail msg => rfl
    | fetched size =>
      by_cases hs : size < 1000000
      · simp [WordPressManager.downloadWordPress, WordPressManager.downloadAttempt,
          hs, exceptOk]
      · simp [WordPressManager.downloadWordPress, WordPressManager.downloadAttempt,
          hs, exceptOk]
  · cases oe <;> rfl

/-- Claim C6: if the target directory already contains a prior WordPress
installation (wp-config.php or wp-includes present) and cleanup is
disallowed, `prepareDirectory` fails with the directory-conflict error and
the directory's contents are unchanged — nothing is deleted. -/
theorem prepare_directory_deny_atomic (entries : List String)
    (confirmAnswer : Bool) (removable : String → Bool) (writable : Bool)
    (h : "wp-config.php" ∈ entries ∨ "wp-includes" ∈ entries) :
    WordPressManager.prepareDirectory entries .off confirmAnswer removable writable =
      (.error "WordPress already installed in target directory", entries) := by
  have hvis : 0 <
      (entries.filter fun f => !(WordPressManager.startsWithDot f)).length := by
    rcases h with hm | hm <;>
      exact List.length_pos.mpr (List.ne_nil_of_mem
        (List.mem_filter.mpr ⟨hm, by decide⟩))
  have hc : (entries.contains "wp-config.php" || entries.contains "wp-includes") = true := by
    rcases h with hm | hm
    · simp only [Bool.or_eq_true]
      exact Or.inl (List.elem_eq_true_of_mem hm)
    · simp only [Bool.or_eq_true]
      exact Or.inr (List.elem_eq_true_of_mem hm)
  unfold WordPressManager.prepareDirectory
  rw [if_pos hvis, if_pos hc]

/-- Witness for C6 at a concrete directory with a prior installation. -/
theorem prepare_directory_deny_atomic_witness :
    WordPressManager.prepareDirectory ["wp-config.php", "wp-includes", "index.php"]
      .off true (fun _ => true) true =
      (.error "WordPress already installed in target directory",
       ["wp-config.php", "wp-includes", "index.php"]) :=
  prepare_directory_deny_atomic ["wp-config.php", "wp-includes", "index.php"]
    true (fun _ => true) true (Or.inl (by decide))

/-- Claim C5: in `installAllSites`, the batch result is the list of each
site's own per-site outcome; a site whose installation throws is recorded
as failed with exactly its own error, and a distinct site whose own run
succeeds still appears with its own successful result, untouched by the
first site's error. -/
theorem install_isolation (sites : List SiteConfig)
    (runSite : SiteConfig → Except String DeploymentResult)
    (i j : Nat) (hi : i < sites.length) (hj : j < sites.length) (hij : i ≠ j)
    (e : String) (r : DeploymentResult)
    (hA : runSite (sites.get ⟨i, hi⟩) = .error e)
    (hB : runSite (sites.get ⟨j, hj⟩) = .ok r) (hr : r.status = .success) :
    WordPressManager.installAllSites (.ok ()) sites runSite =
      .ok (sites.map fun s => WordPressManager.processSite s (runSite s)) ∧
    (sites.map fun s => WordPressManager.processSite s (runSite s))[i]? =
      some { site_name := (sites.get ⟨i, hi⟩).site_name, status := .failed,
             errors := some [e] } ∧
    (sites.map fun s => WordPressManager.processSite s (runSite s))[j]? = some r ∧
    r.status = .success := by
  refine ⟨rfl, ?_, ?_, hr⟩
  · rw [List.getElem?_map, List.getElem?_eq_getElem hi]
    simp only [show sites[i] = sites.get ⟨i, hi⟩ from rfl, Option.map,
      WordPressManager.processSite, hA]
  · rw [List.getElem?_map, List.getElem?_eq_getElem hj]
    simp only [show sites[j] = sites.get ⟨j, hj⟩ from rfl, Option.map,
      WordPressManager.processSite, hB]

/-- Witness for C5: site `acme` throws, site `beta` succeeds. -/
theorem install_isolation_witness :
    WordPressManager.installAllSites (.ok ()) [acmeSite, betaSite] installRun =
      .ok ([acmeSite, betaSite].map fun s =>
        WordPressManager.processSite s (installRun s)) ∧
    ([acmeSite, betaSite].map fun s =>
      WordPressManager.processSite s (installRun s))[0]? =
      some { site_name := "acme", status := .failed,
             errors := some ["WordPress installation failed: Failed to create database"] } ∧
    ([acmeSite, betaSite].map fun s =>
      WordPressManager.processSite s (installRun s))[1]? = some betaResult ∧
    betaResult.status = .success :=
  install_isolation [acmeSite, betaSite] installRun 0 1 (by decide) (by decide)
    (by decide) "WordPress installation failed: Failed to create database"
    betaResult rfl rfl rfl

/-- For indices `i < j` with equal database names, `checkDupAux` reports
the duplicate at the later index `j` (offset by the running index `k`). -/
theorem checkDupAux_mem_db (sites : List ConfigParser.SiteConfig) (k : Nat)
    (seenN seenD : List String) (j : Nat) (hj : j < sites.length)
    (h : (sites.get ⟨j, hj⟩).database_name ∈ seenD ∨
      ∃ i si, i < j ∧ sites[i]? = some si ∧
        si.database_name = (sites.get ⟨j, hj⟩).database_name) :
    (⟨"database_name",
      "Duplicate database name: " ++ (sites.get ⟨j, hj⟩).database_name,
      some (k + j)⟩ : ConfigParser.ValidationError) ∈
      ConfigParser.checkDupAux sites k seenN seenD := by
  induction sites generalizing k seenN seenD j with
  | nil => exact absurd hj (by simp)
  | cons s rest ih =>
    cases j with
    | zero =>
      have hd : s.database_name ∈ seenD := by
        rcases h with hmem | ⟨i, si, hij, hget, heq⟩
        · simpa using hmem
        · omega
      rw [ConfigParser.checkDupAux]
      refine List.mem_append.mpr (Or.inl (List.mem_append.mpr (Or.inr ?_)))
      rw [if_pos hd]
      simp [show ((s :: rest).get ⟨0, hj⟩) = s from rfl]
    | succ jp =>
      have hlen : jp < rest.length := by simpa using hj
      have hget0 : ((s :: rest).get ⟨jp + 1, hj⟩) = rest.get ⟨jp, hlen⟩ := rfl
      rw [ConfigParser.checkDupAux]
      refine List.mem_append.mpr (Or.inr ?_)
      rw [hget0, show k + (jp + 1) = (k + 1) + jp from by omega]
      apply ih
      rcases h with hmem | ⟨i, si, hij, hgeti, heq⟩
      · left
        rw [hget0] at hmem
        by_cases hs : s.database_name ∈ seenD
        · simpa [hs] using hmem
        · simp only [if_neg hs]
          exact List.mem_cons_of_mem _ hmem
      · cases i with
        | zero =>
          left
          have hsi : si = s := by simpa using hgeti.symm
          rw [hget0] at heq
          rw [← heq, hsi]
          by_cases hs : s.database_name ∈ seenD
          · simpa [hs] using hs
          · simp [hs]
        | succ ip =>
          right
          refine ⟨ip, si, by omega, by simpa using hgeti, ?_⟩
          rw [hget0] at heq
          exact heq

/-- Counterexample for C4: two descriptors (indices 0 and 1) share the
database name `shared_db`; validation fails, but the collected violations
name only index 1 — the first offending descriptor's index 0 is absent. -/
theorem duplicate_report_counterexample :
    ConfigParser.collectErrors none [dupA, dupB] =
      [⟨"database_name", "Duplicate database name: shared_db", some 1⟩] ∧
    ConfigParser.validateConfig dupConfig =
      .error (ConfigParser.formatErrors
        [⟨"database_name", "Duplicate database name: shared_db", some 1⟩]) :=
  ⟨rfl, rfl⟩

/-- Claim C4 (amended): for any two descriptors at indices `i < j` with the
same database name, validation fails, the collected violations include the
duplicate-database entry for the later index `j` (the earlier index is not
reported for that pair), and the failure message formats the complete
collected violation list — all violations across the whole config are
gathered before the error is raised. -/
theorem duplicate_report_later_index (my : Option ConfigParser.MySQLConfig)
    (sites : List ConfigParser.SiteConfig) (i j : Nat)
    (hij : i < j) (hj : j < sites.length)
    (hdb : (sites.get ⟨i, Nat.lt_trans hij hj⟩).database_name =
      (sites.get ⟨j, hj⟩).database_name) :
    (⟨"database_name", "Duplicate database name: "
        ++ (sites.get ⟨j, hj⟩).database_name, some j⟩ :
      ConfigParser.ValidationError) ∈ ConfigParser.collectErrors my sites ∧
    ConfigParser.validateConfig { mysql := my, sites := some sites } =
      .error (ConfigParser.formatErrors (ConfigParser.collectErrors my sites)) := by
  have hmem0 : (⟨"database_name", "Duplicate database name: "
      ++ (sites.get ⟨j, hj⟩).database_name, some (0 + j)⟩ :
      ConfigParser.ValidationError) ∈ ConfigParser.checkDupAux sites 0 [] [] := by
    apply checkDupAux_mem_db
    exact Or.inr ⟨i, sites.get ⟨i, Nat.lt_trans hij hj⟩, hij,
      List.getElem?_eq_getElem (Nat.lt_trans hij hj), hdb⟩
  have hmem : (⟨"database_name", "Duplicate database name: "
      ++ (sites.get ⟨j, hj⟩).database_name, some j⟩ :
      ConfigParser.ValidationError) ∈ ConfigParser.collectErrors my sites := by
    unfold ConfigParser.collectErrors ConfigParser.checkDuplicates
    refine List.mem_append.mpr (Or.inr ?_)
    simpa using hmem0
  refine ⟨hmem, ?_⟩
  have hne : ConfigParser.collectErrors my sites ≠ [] := List.ne_nil_of_mem hmem
  rw [show ConfigParser.validateConfig { mysql := my, sites := some sites } =
      (if (ConfigParser.collectErrors my sites).isEmpty then Except.ok ()
       else .error (ConfigParser.formatErrors (ConfigParser.collectErrors my sites)))
    from rfl]
  rw [List.isEmpty_eq_false.mpr hne]
  rfl

/-- Witness for C4's amended theorem at the concrete duplicate pair. -/
theorem duplicate_report_later_index_witness :
    (⟨"database_name", "Duplicate database name: "
        ++ ([dupA, dupB].get ⟨1, by decide⟩).database_name, some 1⟩ :
      ConfigParser.ValidationError) ∈ ConfigParser.collectErrors none [dupA, dupB] ∧
    ConfigParser.validateConfig { mysql := none, sites := some [dupA, dupB] } =
      .error (ConfigParser.formatErrors (ConfigParser.collectErrors none [dupA, dupB])) :=
  duplicate_report_later_index none [dupA, dupB] 0 1 (by decide) (by decide) rfl

end WPHost
